import Mathlib

/-!
Shallow embedding of `src/server.js` (Link-library): an Express HTTP API over
a PostgreSQL store with two tables, `links` and `folders`.  Each route handler
is embedded as a pure Lean function from the request data and the store state
to a response (and the next store state).

Modelling decisions, recorded once here:

* JSON values in request bodies are modelled by the inductive type `Json`;
  JavaScript truthiness (`!x`, `x || d`) is `Json.truthy` / `jsOr`.
* Fields that the schema and handlers treat as text (`id`, `url`, `notes`,
  `folder`, `created`, a folder's `name`) are modelled as `Option String`:
  `none` is an absent (`undefined`) body field, and the only falsy string is
  the empty string, exactly as in JavaScript.
* The `tags` column stores `JSON.stringify(tags || [])` and every read applies
  `row.tags ? JSON.parse(row.tags) : []`.  `JSON.stringify` is injective on
  JSON values and never returns the empty string, so a stored serialised value
  is always truthy and parses back to the value itself; the column is
  therefore modelled as `Option Json`, `none` standing for SQL `NULL` and
  `some v` for the stored text `JSON.stringify v`.
* `node-postgres` sends a JavaScript `undefined` parameter as SQL `NULL`.
  The `links` table declares `url TEXT NOT NULL`, so an UPDATE that writes
  `NULL` into `url` of at least one row fails with error code 23502, and a
  duplicate key on either table fails with error code 23505 (the code the
  folder handler inspects).  SQL errors are `DbError` values carrying the
  PostgreSQL error code and message; a failed statement changes nothing.
* `ORDER BY created DESC` and `WHERE id = $1` compare the TEXT column
  byte-wise; Lean's lexicographic `String` order models the comparison.
-/

/-- A JavaScript/JSON value, as far as the request bodies need: numbers are
modelled as integers (no handler does arithmetic on them). -/
inductive Json where
  | null : Json
  | bool (b : Bool) : Json
  | num (n : Int) : Json
  | str (s : String) : Json
  | arr (elems : List Json) : Json
  | obj (fields : List (String × Json)) : Json

/-- JavaScript truthiness of a `Json` value: `null`, `false`, `0` and the
empty string are falsy; every array and object is truthy. -/
def Json.truthy : Json → Bool
  | .null => false
  | .bool b => b
  | .num n => n != 0
  | .str s => s != ""
  | .arr _ => true
  | .obj _ => true

/-- JavaScript `x || d` for a possibly absent `Json` value (`undefined` and
every falsy value fall through to the default). -/
def jsOr (x : Option Json) (d : Json) : Json :=
  match x with
  | some v => if v.truthy then v else d
  | none => d

/-- JavaScript truthiness of a possibly absent string field (`undefined` and
`""` are the falsy cases). -/
def optTruthy : Option String → Bool
  | none => false
  | some s => s != ""

/-- JavaScript `x || ''` for a possibly absent string field.  For a string
`s`, `s || ''` is `s` itself (the only falsy string is `''`), so this is
`Option.getD x ""`. -/
def strOr (x : Option String) : String := x.getD ""

/-- One row of the `links` table.  `notes`, `folder`, `tags` are nullable
columns; `tags` holds the JSON-serialised tag value (see the header). -/
structure LinkRow where
  id : String
  url : String
  notes : Option String
  folder : Option String
  tags : Option Json
  created : String

/-- The store: the `links` table and the `folders` table.  A folder row's
surrogate `id SERIAL` key is never read by any handler, so a folder is
modelled by its `name` alone. -/
structure DB where
  links : List LinkRow
  folders : List String

/-- A PostgreSQL error as the handlers see it: the five-character SQLSTATE
`code` (the folder handler tests `err.code === '23505'`) and the `message`
echoed in 500 responses. -/
structure DbError where
  code : String
  message : String
deriving DecidableEq, Repr

/-- Unique-constraint violation (SQLSTATE 23505) on the named constraint. -/
def uniqueViolation (constraintName : String) : DbError :=
  { code := "23505",
    message := "duplicate key value violates unique constraint " ++ constraintName }

/-- NOT NULL violation (SQLSTATE 23502) on the named column. -/
def notNullViolation (column : String) : DbError :=
  { code := "23502",
    message := "null value in column " ++ column ++ " violates not-null constraint" }

/-- The descending `created` order used by `ORDER BY created DESC`: row `a`
comes before row `b` when `b.created ≤ a.created` (plain string comparison,
never date parsing). -/
def createdGe (a b : LinkRow) : Prop := b.created ≤ a.created

instance : DecidableRel createdGe :=
  fun a b => inferInstanceAs (Decidable (b.created ≤ a.created))

instance : IsTotal LinkRow createdGe :=
  ⟨fun a b => (le_total a.created b.created).symm⟩

instance : IsTrans LinkRow createdGe :=
  ⟨fun _ _ _ hab hbc => le_trans hbc hab⟩

/-- `SELECT * FROM links ORDER BY created DESC`: every row, sorted by the
`created` TEXT column descending. -/
def selectLinksOrdered (db : DB) : List LinkRow :=
  List.insertionSort createdGe db.links

/-- `SELECT * FROM links WHERE id = $1`: the row with the given primary key,
if any. -/
def selectLinkById (db : DB) (pid : String) : Option LinkRow :=
  db.links.find? (fun r => r.id == pid)

/-- `INSERT INTO links (id, url, notes, folder, tags, created) VALUES …`:
fails with SQLSTATE 23505 when the primary key is already present, otherwise
appends the row. -/
def insertLink (db : DB) (row : LinkRow) : Except DbError DB :=
  if db.links.any (fun r => r.id == row.id) then
    .error (uniqueViolation "links_pkey")
  else
    .ok { db with links := db.links ++ [row] }

/-- `UPDATE links SET url = $1, notes = $2, folder = $3, tags = $4 WHERE
id = $5`.  Returns the updated store and the affected row count.  When no row
matches, nothing is written and the count is 0.  When a row matches and the
`url` parameter is SQL `NULL` (a JavaScript `undefined` sent by the driver),
the statement violates `url TEXT NOT NULL` and fails atomically. -/
def updateLinks (db : DB) (pid : String) (url : Option String)
    (notes folder : String) (tags : Json) : Except DbError (DB × Nat) :=
  let hits := (db.links.filter (fun r => r.id == pid)).length
  if hits = 0 then
    .ok (db, 0)
  else
    match url with
    | none => .error (notNullViolation "url")
    | some u =>
      .ok ({ db with
              links := db.links.map (fun r =>
                if r.id == pid then
                  { r with url := u, notes := some notes,
                           folder := some folder, tags := some tags }
                else r) },
           hits)

/-- `INSERT INTO folders (name) VALUES ($1)`: fails with SQLSTATE 23505 when
the UNIQUE `name` is already present, otherwise appends the name. -/
def insertFolder (db : DB) (name : String) : Except DbError DB :=
  if db.folders.contains name then
    .error (uniqueViolation "folders_name_key")
  else
    .ok { db with folders := db.folders ++ [name] }

/-- A link as a handler serialises it in a response: the row spread into a
JSON object (`{...row, tags: row.tags ? JSON.parse(row.tags) : []}`), so a
NULL `notes`/`folder` column appears as JSON `null` (`none` here) and the
`tags` column is deserialised, `NULL` becoming the empty list. -/
structure LinkOut where
  id : String
  url : String
  notes : Option String
  folder : Option String
  tags : Json
  created : String

/-- The 201 body of `POST /api/links`: it echoes the destructured request
fields themselves, so an absent `notes`/`folder` stays absent (`undefined`
is dropped by JSON serialisation) instead of becoming the empty string that
was stored. -/
structure CreateEcho where
  id : String
  url : String
  notes : Option String
  folder : Option String
  tags : Json
  created : String

/-- A response body: one constructor per JSON shape the handlers produce. -/
inductive RespBody where
  | linkList (links : List LinkOut)
  | link (l : LinkOut)
  | createdLink (e : CreateEcho)
  | message (s : String)
  | error (s : String)
  | folder (name : String)

/-- An HTTP response: status code and JSON body. -/
structure Response where
  status : Nat
  body : RespBody

/-- Deserialise a `links` row for a response, as every GET handler does:
`tags: row.tags ? JSON.parse(row.tags) : []`. -/
def rowToLinkOut (r : LinkRow) : LinkOut :=
  { id := r.id, url := r.url, notes := r.notes, folder := r.folder,
    tags := match r.tags with
      | some v => v
      | none => Json.arr [],
    created := r.created }

/-- The request body of `POST /api/links` and `PUT /api/links/:id` after
`const { id, url, notes, folder, tags, created } = req.body`: each field is
absent (`undefined`) or present. -/
structure LinkBody where
  id : Option String := none
  url : Option String := none
  notes : Option String := none
  folder : Option String := none
  tags : Option Json := none
  created : Option String := none

/-- Handler of `GET /api/links`. -/
def getLinks (db : DB) : Response :=
  { status := 200,
    body := .linkList ((selectLinksOrdered db).map rowToLinkOut) }

/-- Handler of `GET /api/links/:id`. -/
def getLinkById (db : DB) (pid : String) : Response :=
  match selectLinkById db pid with
  | none => { status := 404, body := .error "Link not found" }
  | some r => { status := 200, body := .link (rowToLinkOut r) }

/-- Handler of `POST /api/links`: validates that `id`, `url`, `created` are
truthy, serialises `tags || []`, inserts the row (`notes || ''`,
`folder || ''`), and echoes the raw destructured fields with status 201; an
insert error is caught and returned as a 500. -/
def postLinks (db : DB) (b : LinkBody) : Response × DB :=
  if !optTruthy b.id || !optTruthy b.url || !optTruthy b.created then
    ({ status := 400, body := .error "Missing required fields" }, db)
  else
    let tagsStored := jsOr b.tags (Json.arr [])
    match insertLink db
        { id := strOr b.id, url := strOr b.url,
          notes := some (strOr b.notes), folder := some (strOr b.folder),
          tags := some tagsStored, created := strOr b.created } with
    | .error e => ({ status := 500, body := .error e.message }, db)
    | .ok db2 =>
      ({ status := 201,
         body := .createdLink
           { id := strOr b.id, url := strOr b.url,
             notes := b.notes, folder := b.folder,
             tags := tagsStored, created := strOr b.created } }, db2)

/-- Handler of `PUT /api/links/:id`: runs the four-column UPDATE (`url` is
passed through as-is, `notes || ''`, `folder || ''`,
`JSON.stringify(tags || [])`), answers 404 when no row was affected, 200
otherwise; a statement error is caught and returned as a 500. -/
def putLink (db : DB) (pid : String) (b : LinkBody) : Response × DB :=
  let tagsStored := jsOr b.tags (Json.arr [])
  match updateLinks db pid b.url (strOr b.notes) (strOr b.folder) tagsStored with
  | .error e => ({ status := 500, body := .error e.message }, db)
  | .ok (db2, 0) => ({ status := 404, body := .error "Link not found" }, db2)
  | .ok (db2, _ + 1) =>
    ({ status := 200, body := .message "Link updated successfully" }, db2)

/-- The folder handler's catch around its INSERT: SQLSTATE 23505 answers 409,
anything else is re-thrown to the outer catch and answers 500 with the
error's message. -/
def folderInsertErrResponse (e : DbError) : Response :=
  if e.code == "23505" then
    { status := 409, body := .error "Folder already exists" }
  else
    { status := 500, body := .error e.message }

/-- Handler of `POST /api/folders`: validates that `name` is truthy, inserts
it, answers 201 with `{name}` on success and dispatches an insert error
through `folderInsertErrResponse`. -/
def postFolders (db : DB) (name : Option String) : Response × DB :=
  if !optTruthy name then
    ({ status := 400, body := .error "Folder name is required" }, db)
  else
    match insertFolder db (strOr name) with
    | .ok db2 => ({ status := 201, body := .folder (strOr name) }, db2)
    | .error e => (folderInsertErrResponse e, db)

/-- Helper: `find?` over a one-element extension finds the new element when
nothing before it matches. -/
theorem find?_append_singleton {α : Type} (p : α → Bool) (l : List α) (r : α)
    (h : ∀ x ∈ l, p x = false) (hr : p r = true) :
    List.find? p (l ++ [r]) = some r := by
  induction l with
  | nil => exact List.find?_cons_of_pos _ hr
  | cons a t ih =>
    rw [List.cons_append, List.find?_cons_of_neg _ (by simp [h a (by simp)])]
    exact ih fun x hx => h x (List.mem_cons_of_mem _ hx)

/-- Helper: `find?` commutes with mapping a function that preserves the
predicate. -/
theorem find?_map_comm {α : Type} (p : α → Bool) (g : α → α)
    (hp : ∀ x, p (g x) = p x) (l : List α) :
    List.find? p (l.map g) = (List.find? p l).map g := by
  induction l with
  | nil => rfl
  | cons a t ih =>
    by_cases h : p a = true
    · rw [List.map_cons, List.find?_cons_of_pos _ (by rw [hp]; exact h),
        List.find?_cons_of_pos _ h]
      rfl
    · rw [List.map_cons, List.find?_cons_of_neg _ (by rw [hp]; simpa using h),
        List.find?_cons_of_neg _ (by simpa using h), ih]

/-- C3: a create-link request whose `id`, `url` or `created` is absent or
falsy answers 400 with the missing-fields message and leaves the store
unchanged. -/
theorem postLinks_missing_fields (db : DB) (b : LinkBody)
    (h : optTruthy b.id = false ∨ optTruthy b.url = false ∨
      optTruthy b.created = false) :
    postLinks db b =
      ({ status := 400, body := .error "Missing required fields" }, db) := by
  unfold postLinks
  rcases h with h | h | h <;> simp [h]

theorem postLinks_missing_fields_witness :
    postLinks ⟨[], []⟩ { url := some "https://x.example", created := some "2024-01-01" } =
      ({ status := 400, body := .error "Missing required fields" }, ⟨[], []⟩) :=
  postLinks_missing_fields _ _ (Or.inl rfl)

/-- C7: an update aimed at an id no stored link has answers 404 and leaves
the whole store unchanged. -/
theorem putLink_not_found (db : DB) (pid : String) (b : LinkBody)
    (h : ∀ r ∈ db.links, r.id ≠ pid) :
    putLink db pid b =
      ({ status := 404, body := .error "Link not found" }, db) := by
  have hf : (db.links.filter fun r => r.id == pid).length = 0 := by
    rw [List.length_eq_zero, List.filter_eq_nil_iff]
    intro a ha
    simpa using h a ha
  unfold putLink updateLinks
  simp [hf]

theorem putLink_not_found_witness :
    putLink ⟨[{ id := "a", url := "u", notes := none, folder := none,
                tags := none, created := "t" }], []⟩ "b" { url := some "u2" } =
      ({ status := 404, body := .error "Link not found" },
       ⟨[{ id := "a", url := "u", notes := none, folder := none,
           tags := none, created := "t" }], []⟩) :=
  putLink_not_found _ _ _ (by intro r hr; simp at hr; simp [hr])

/-- C5: a create-link request with truthy `id`, `url`, `created` whose id is
already taken answers 500 (the propagated duplicate-key storage error), not
409, and changes nothing. -/
theorem postLinks_duplicate_id (db : DB) (b : LinkBody) (i : String)
    (hid : b.id = some i) (hi : i ≠ "")
    (hu : optTruthy b.url = true) (hc : optTruthy b.created = true)
    (hdup : ∃ r ∈ db.links, r.id = i) :
    (postLinks db b).1.status = 500 ∧ (postLinks db b).1.status ≠ 409 ∧
    (postLinks db b).2 = db := by
  have hidt : optTruthy b.id = true := by simp [hid, optTruthy, hi]
  have hins : db.links.any (fun r => r.id == strOr b.id) = true := by
    rw [List.any_eq_true]
    obtain ⟨r, hr, hrid⟩ := hdup
    exact ⟨r, hr, by simp [hid, strOr, hrid]⟩
  unfold postLinks insertLink
  simp [hidt, hu, hc, hins]

theorem postLinks_duplicate_id_witness :
    (postLinks ⟨[{ id := "a", url := "u", notes := none, folder := none,
                   tags := none, created := "t" }], []⟩
        { id := some "a", url := some "u2", created := some "t2" }).1.status = 500 ∧
    (postLinks ⟨[{ id := "a", url := "u", notes := none, folder := none,
                   tags := none, created := "t" }], []⟩
        { id := some "a", url := some "u2", created := some "t2" }).1.status ≠ 409 ∧
    (postLinks ⟨[{ id := "a", url := "u", notes := none, folder := none,
                   tags := none, created := "t" }], []⟩
        { id := some "a", url := some "u2", created := some "t2" }).2 =
      ⟨[{ id := "a", url := "u", notes := none, folder := none,
          tags := none, created := "t" }], []⟩ :=
  postLinks_duplicate_id _ _ "a" rfl (by decide) rfl rfl
    ⟨{ id := "a", url := "u", notes := none, folder := none,
       tags := none, created := "t" }, by simp, rfl⟩

/-- C4: folder creation answers 400 on an absent or falsy name, 409 (store
untouched) when the truthy name already exists, 201 with the name (and the
folder appended) when it does not, and maps any non-23505 insert error to a
500 carrying the error's message. -/
theorem postFolders_create (db : DB) (name : Option String) :
    (optTruthy name = false →
      postFolders db name =
        ({ status := 400, body := .error "Folder name is required" }, db)) ∧
    (∀ s, name = some s → s ≠ "" → s ∈ db.folders →
      postFolders db name =
        ({ status := 409, body := .error "Folder already exists" }, db)) ∧
    (∀ s, name = some s → s ≠ "" → s ∉ db.folders →
      postFolders db name =
        ({ status := 201, body := .folder s },
         { db with folders := db.folders ++ [s] })) ∧
    (∀ e : DbError, e.code ≠ "23505" →
      folderInsertErrResponse e =
        { status := 500, body := .error e.message }) := by
  refine ⟨?_, ?_, ?_, ?_⟩
  · intro h
    unfold postFolders
    simp [h]
  · intro s hs hne hmem
    unfold postFolders insertFolder folderInsertErrResponse
    simp [hs, optTruthy, hne, strOr, hmem, uniqueViolation]
  · intro s hs hne hmem
    unfold postFolders insertFolder
    simp [hs, optTruthy, hne, strOr, hmem]
  · intro e he
    unfold folderInsertErrResponse
    simp [he]

theorem postFolders_create_witness :
    postFolders ⟨[], []⟩ (some "work") =
      ({ status := 201, body := .folder "work" }, ⟨[], ["work"]⟩) ∧
    postFolders ⟨[], ["work"]⟩ (some "work") =
      ({ status := 409, body := .error "Folder already exists" }, ⟨[], ["work"]⟩) ∧
    postFolders ⟨[], []⟩ none =
      ({ status := 400, body := .error "Folder name is required" }, ⟨[], []⟩) ∧
    folderInsertErrResponse { code := "57014", message := "canceling statement" } =
      { status := 500, body := .error "canceling statement" } :=
  ⟨(postFolders_create ⟨[], []⟩ (some "work")).2.2.1 "work" rfl (by decide) (by simp),
   (postFolders_create ⟨[], ["work"]⟩ (some "work")).2.1 "work" rfl (by decide) (by simp),
   (postFolders_create ⟨[], []⟩ none).1 rfl,
   (postFolders_create ⟨[], []⟩ none).2.2.2 _ (by decide)⟩


/-- Helper: a create-link request with truthy `id`, `url`, `created` and a
fresh id inserts the defaulted row and echoes the raw fields with 201. -/
theorem postLinks_fresh (db : DB) (b : LinkBody) (i u c : String)
    (hid : b.id = some i) (hurl : b.url = some u) (hcr : b.created = some c)
    (hfresh : ∀ r ∈ db.links, r.id ≠ i)
    (hi : i ≠ "") (hu : u ≠ "") (hc : c ≠ "") :
    postLinks db b =
      ({ status := 201,
         body := .createdLink
           { id := i, url := u, notes := b.notes, folder := b.folder,
             tags := jsOr b.tags (Json.arr []), created := c } },
       { db with links := db.links ++
          [{ id := i, url := u, notes := some (strOr b.notes),
             folder := some (strOr b.folder),
             tags := some (jsOr b.tags (Json.arr [])), created := c }] }) := by
  have hnotex : ¬ ∃ x ∈ db.links, x.id = i := by
    rintro ⟨x, hx, hxi⟩
    exact hfresh x hx hxi
  unfold postLinks insertLink
  simp [hid, hurl, hcr, optTruthy, hi, hu, hc, strOr, hnotex]

/-- Helper: fetching a freshly appended row by its id finds exactly it. -/
theorem getLinkById_append_fresh (db : DB) (row : LinkRow)
    (hfresh : ∀ r ∈ db.links, r.id ≠ row.id) :
    getLinkById { db with links := db.links ++ [row] } row.id =
      { status := 200, body := .link (rowToLinkOut row) } := by
  unfold getLinkById selectLinkById
  rw [show ({ db with links := db.links ++ [row] } : DB).links
      = db.links ++ [row] from rfl]
  rw [find?_append_singleton _ _ _ (fun x hx => by simpa using hfresh x hx)
    (by simp)]

/-- Helper: the UPDATE with a present `url` and at least one matching row
answers 200 and overwrites the four columns of every matching row. -/
theorem putLink_found (db : DB) (pid : String) (b : LinkBody) (u : String)
    (hurl : b.url = some u) (hex : ∃ r ∈ db.links, r.id = pid) :
    putLink db pid b =
      ({ status := 200, body := .message "Link updated successfully" },
       { db with links := db.links.map fun r =>
          if r.id == pid then
            { r with url := u, notes := some (strOr b.notes),
                     folder := some (strOr b.folder),
                     tags := some (jsOr b.tags (Json.arr [])) }
          else r }) := by
  obtain ⟨r, hr, hrid⟩ := hex
  have hmem : r ∈ db.links.filter (fun x => x.id == pid) :=
    List.mem_filter.mpr ⟨hr, by simp [hrid]⟩
  have hne : (db.links.filter fun x => x.id == pid).length ≠ 0 := by
    simp only [ne_eq, List.length_eq_zero]
    exact List.ne_nil_of_mem hmem
  obtain ⟨k, hk⟩ := Nat.exists_eq_succ_of_ne_zero hne
  unfold putLink updateLinks
  simp only [hurl, hk]
  simp

/-- Helper: the UPDATE with an absent `url` (sent as SQL NULL) and at least
one matching row fails against `url TEXT NOT NULL`, answering 500 with the
store unchanged. -/
theorem putLink_null_url (db : DB) (pid : String) (b : LinkBody)
    (hurl : b.url = none) (hex : ∃ r ∈ db.links, r.id = pid) :
    putLink db pid b =
      ({ status := 500, body := .error (notNullViolation "url").message },
       db) := by
  obtain ⟨r, hr, hrid⟩ := hex
  have hmem : r ∈ db.links.filter (fun x => x.id == pid) :=
    List.mem_filter.mpr ⟨hr, by simp [hrid]⟩
  have hne : (db.links.filter fun x => x.id == pid).length ≠ 0 := by
    simp only [ne_eq, List.length_eq_zero]
    exact List.ne_nil_of_mem hmem
  unfold putLink updateLinks
  simp [hurl, hne]

/-- C6: listing links answers 200 with all stored rows sorted by the
`created` string descending (plain string comparison, never date parsing),
each row deserialised, the `tags` of a NULL column becoming the empty
list. -/
theorem getLinks_ordered (db : DB) :
    ∃ rows : List LinkRow,
      rows.Perm db.links ∧
      List.Sorted (fun a b : LinkRow => b.created ≤ a.created) rows ∧
      getLinks db =
        { status := 200, body := .linkList (rows.map rowToLinkOut) } ∧
      ∀ r : LinkRow,
        (rowToLinkOut r).id = r.id ∧ (rowToLinkOut r).url = r.url ∧
        (rowToLinkOut r).created = r.created ∧
        (rowToLinkOut r).tags = r.tags.getD (Json.arr []) := by
  refine ⟨selectLinksOrdered db, List.perm_insertionSort _ _,
    List.sorted_insertionSort createdGe _, rfl, ?_⟩
  intro r
  refine ⟨rfl, rfl, rfl, ?_⟩
  cases h : r.tags <;> simp [rowToLinkOut, h]

/-- C2: creating a link with a string-list `tags` and reading it back by id
yields exactly that list in order, and creating with `tags` absent yields the
empty list (never null or an absent field). -/
theorem tags_roundtrip (db : DB) (i u c : String) (L : List String)
    (notes folder : Option String)
    (hfresh : ∀ r ∈ db.links, r.id ≠ i)
    (hi : i ≠ "") (hu : u ≠ "") (hc : c ≠ "") :
    getLinkById
        (postLinks db
          { id := some i, url := some u, notes := notes, folder := folder,
            tags := some (Json.arr (L.map Json.str)),
            created := some c }).2 i =
      { status := 200,
        body := .link
          { id := i, url := u, notes := some (strOr notes),
            folder := some (strOr folder),
            tags := Json.arr (L.map Json.str), created := c } } ∧
    getLinkById
        (postLinks db
          { id := some i, url := some u, notes := notes, folder := folder,
            tags := none, created := some c }).2 i =
      { status := 200,
        body := .link
          { id := i, url := u, notes := some (strOr notes),
            folder := some (strOr folder),
            tags := Json.arr [], created := c } } := by
  constructor
  · rw [postLinks_fresh db _ i u c rfl rfl rfl hfresh hi hu hc]
    have := getLinkById_append_fresh db
      { id := i, url := u, notes := some (strOr notes),
        folder := some (strOr folder),
        tags := some (jsOr (some (Json.arr (L.map Json.str))) (Json.arr [])),
        created := c } hfresh
    simpa [rowToLinkOut, jsOr, Json.truthy] using this
  · rw [postLinks_fresh db _ i u c rfl rfl rfl hfresh hi hu hc]
    have := getLinkById_append_fresh db
      { id := i, url := u, notes := some (strOr notes),
        folder := some (strOr folder),
        tags := some (jsOr none (Json.arr [])), created := c } hfresh
    simpa [rowToLinkOut, jsOr] using this

theorem tags_roundtrip_witness :
    getLinkById
        (postLinks ⟨[], []⟩
          { id := some "a", url := some "u", notes := none, folder := none,
            tags := some (Json.arr (["x", "y"].map Json.str)),
            created := some "t" }).2 "a" =
      { status := 200,
        body := .link
          { id := "a", url := "u", notes := some (strOr none),
            folder := some (strOr none),
            tags := Json.arr (["x", "y"].map Json.str), created := "t" } } ∧
    getLinkById
        (postLinks ⟨[], []⟩
          { id := some "a", url := some "u", notes := none, folder := none,
            tags := none, created := some "t" }).2 "a" =
      { status := 200,
        body := .link
          { id := "a", url := "u", notes := some (strOr none),
            folder := some (strOr none),
            tags := Json.arr [], created := "t" } } :=
  tags_roundtrip ⟨[], []⟩ "a" "u" "t" ["x", "y"] none none
    (by intro r hr; simp at hr) (by decide) (by decide) (by decide)

/-- C9: when `notes` and `folder` are absent from a successful create, the
201 body echoes them as absent, while the stored row read back by id carries
empty strings for both: the creation response and the subsequent read
disagree on the absent optional fields. -/
theorem postLinks_echo_vs_readback (db : DB) (i u c : String)
    (tagsIn : Option Json)
    (hfresh : ∀ r ∈ db.links, r.id ≠ i)
    (hi : i ≠ "") (hu : u ≠ "") (hc : c ≠ "") :
    (postLinks db
        { id := some i, url := some u, tags := tagsIn,
          created := some c }).1 =
      { status := 201,
        body := .createdLink
          { id := i, url := u, notes := none, folder := none,
            tags := jsOr tagsIn (Json.arr []), created := c } } ∧
    getLinkById
        (postLinks db
          { id := some i, url := some u, tags := tagsIn,
            created := some c }).2 i =
      { status := 200,
        body := .link
          { id := i, url := u, notes := some "", folder := some "",
            tags := jsOr tagsIn (Json.arr []), created := c } } := by
  constructor
  · rw [postLinks_fresh db _ i u c rfl rfl rfl hfresh hi hu hc]
  · rw [postLinks_fresh db _ i u c rfl rfl rfl hfresh hi hu hc]
    have := getLinkById_append_fresh db
      { id := i, url := u, notes := some "", folder := some "",
        tags := some (jsOr tagsIn (Json.arr [])), created := c } hfresh
    simpa [rowToLinkOut, strOr] using this

theorem postLinks_echo_vs_readback_witness :
    (postLinks ⟨[], []⟩
        { id := some "a", url := some "u", created := some "t" }).1 =
      { status := 201,
        body := .createdLink
          { id := "a", url := "u", notes := none, folder := none,
            tags := jsOr none (Json.arr []), created := "t" } } ∧
    getLinkById
        (postLinks ⟨[], []⟩
          { id := some "a", url := some "u", created := some "t" }).2 "a" =
      { status := 200,
        body := .link
          { id := "a", url := "u", notes := some "", folder := some "",
            tags := jsOr none (Json.arr []), created := "t" } } :=
  postLinks_echo_vs_readback ⟨[], []⟩ "a" "u" "t" none
    (by intro r hr; simp at hr) (by decide) (by decide) (by decide)

/-- C1 counterexample: on a store holding link `a` with url `u0`, an update
request omitting `url` does not write `url` as the empty string — the UPDATE
fails against the NOT NULL constraint, answers 500, and the stored url stays
`u0`. -/
theorem putLink_omitted_url_counterexample :
    ((putLink
        ⟨[{ id := "a", url := "u0", notes := some "n0", folder := some "f0",
            tags := some (Json.arr []), created := "2024-01-01" }], []⟩
        "a" { notes := some "n1" }).2.links.map fun r => r.url) = ["u0"] ∧
    ¬ ((putLink
        ⟨[{ id := "a", url := "u0", notes := some "n0", folder := some "f0",
            tags := some (Json.arr []), created := "2024-01-01" }], []⟩
        "a" { notes := some "n1" }).2.links.map fun r => r.url) = [""] ∧
    (putLink
        ⟨[{ id := "a", url := "u0", notes := some "n0", folder := some "f0",
            tags := some (Json.arr []), created := "2024-01-01" }], []⟩
        "a" { notes := some "n1" }).1.status = 500 :=
  ⟨rfl, by decide, rfl⟩

/-- C1 (amended): an update on an existing link id whose body supplies `url`
overwrites all four of url, notes, folder, tags with the request values, an
omitted `notes`/`folder` written as the empty string and `tags` written as
the supplied list or the empty list when omitted; an update omitting `url`
instead fails against the `url` NOT NULL constraint, answering 500 and
leaving the store unchanged. -/
theorem putLink_overwrites (db : DB) (pid : String) (b : LinkBody)
    (hex : ∃ r ∈ db.links, r.id = pid)
    (htags : b.tags = none ∨ ∃ l, b.tags = some (Json.arr l)) :
    (b.url = none →
      putLink db pid b =
        ({ status := 500, body := .error (notNullViolation "url").message },
         db)) ∧
    (∀ u, b.url = some u →
      putLink db pid b =
        ({ status := 200, body := .message "Link updated successfully" },
         { db with links := db.links.map fun r =>
            if r.id == pid then
              { r with url := u, notes := some (b.notes.getD ""),
                       folder := some (b.folder.getD ""),
                       tags := some (b.tags.getD (Json.arr [])) }
            else r })) := by
  constructor
  · intro hurl
    exact putLink_null_url db pid b hurl hex
  · intro u hurl
    have htg : jsOr b.tags (Json.arr []) = b.tags.getD (Json.arr []) := by
      rcases htags with h | ⟨l, h⟩ <;> simp [h, jsOr, Json.truthy]
    rw [putLink_found db pid b u hurl hex]
    simp only [strOr, htg]

theorem putLink_overwrites_witness :
    putLink
        ⟨[{ id := "a", url := "u0", notes := some "n0", folder := some "f0",
            tags := some (Json.arr []), created := "t" }], []⟩
        "a" { url := some "u1" } =
      ({ status := 200, body := .message "Link updated successfully" },
       ⟨[{ id := "a", url := "u1", notes := some "", folder := some "",
           tags := some (Json.arr []), created := "t" }], []⟩) :=
  (putLink_overwrites
      ⟨[{ id := "a", url := "u0", notes := some "n0", folder := some "f0",
          tags := some (Json.arr []), created := "t" }], []⟩
      "a" { url := some "u1" }
      ⟨{ id := "a", url := "u0", notes := some "n0", folder := some "f0",
         tags := some (Json.arr []), created := "t" }, by simp, rfl⟩
      (Or.inl rfl)).2 "u1" rfl

/-- C8: an update on an existing link id changes neither the targeted link's
`id` and `created` columns nor any other stored link at all. -/
theorem putLink_frame (db : DB) (pid : String) (b : LinkBody)
    (hex : ∃ r ∈ db.links, r.id = pid) :
    List.Forall₂
      (fun r r2 : LinkRow =>
        r2.id = r.id ∧ r2.created = r.created ∧ (r.id ≠ pid → r2 = r))
      db.links (putLink db pid b).2.links := by
  cases hurl : b.url with
  | none =>
    rw [putLink_null_url db pid b hurl hex]
    exact List.forall₂_same.mpr fun x _ => ⟨rfl, rfl, fun _ => rfl⟩
  | some u =>
    rw [putLink_found db pid b u hurl hex]
    refine List.forall₂_map_right_iff.mpr
      (List.forall₂_same.mpr fun x _ => ?_)
    by_cases h : x.id == pid
    · have hid : x.id = pid := by simpa using h
      simp [h, hid]
    · simp [h]

theorem putLink_frame_witness :
    List.Forall₂
      (fun r r2 : LinkRow =>
        r2.id = r.id ∧ r2.created = r.created ∧ (r.id ≠ "a" → r2 = r))
      [{ id := "a", url := "u0", notes := none, folder := none,
         tags := none, created := "t0" },
       { id := "b", url := "u1", notes := none, folder := none,
         tags := none, created := "t1" }]
      (putLink
        ⟨[{ id := "a", url := "u0", notes := none, folder := none,
            tags := none, created := "t0" },
          { id := "b", url := "u1", notes := none, folder := none,
            tags := none, created := "t1" }], []⟩
        "a" { url := some "u2" }).2.links :=
  putLink_frame
    ⟨[{ id := "a", url := "u0", notes := none, folder := none,
        tags := none, created := "t0" },
      { id := "b", url := "u1", notes := none, folder := none,
        tags := none, created := "t1" }], []⟩
    "a" { url := some "u2" }
    ⟨{ id := "a", url := "u0", notes := none, folder := none,
       tags := none, created := "t0" }, by simp, rfl⟩

/-- C10: neither create nor update validates that `tags` is a list: any
truthy JSON value supplied as `tags` (a string, a number, …) is serialised
and stored as-is, and reading the link back yields that value itself, not
a list of strings. -/
theorem tags_unvalidated (db : DB) (i u c : String) (v : Json)
    (hv : v.truthy = true) (hi : i ≠ "") (hu : u ≠ "") (hc : c ≠ "") :
    ((∀ r ∈ db.links, r.id ≠ i) →
      (postLinks db
          { id := some i, url := some u, tags := some v,
            created := some c }).2.links =
        db.links ++
          [{ id := i, url := u, notes := some "", folder := some "",
             tags := some v, created := c }] ∧
      getLinkById
          (postLinks db
            { id := some i, url := some u, tags := some v,
              created := some c }).2 i =
        { status := 200,
          body := .link
            { id := i, url := u, notes := some "", folder := some "",
              tags := v, created := c } }) ∧
    (∀ pid (b : LinkBody), b.url = some u → b.tags = some v →
      (∃ r ∈ db.links, r.id = pid) →
      ∃ r2, selectLinkById (putLink db pid b).2 pid = some r2 ∧
        r2.tags = some v ∧
        getLinkById (putLink db pid b).2 pid =
          { status := 200, body := .link (rowToLinkOut r2) } ∧
        (rowToLinkOut r2).tags = v) := by
  constructor
  · intro hfresh
    have hpost := postLinks_fresh db
      { id := some i, url := some u, tags := some v, created := some c }
      i u c rfl rfl rfl hfresh hi hu hc
    constructor
    · rw [hpost]
      simp [strOr, jsOr, hv]
    · rw [hpost]
      have := getLinkById_append_fresh db
        { id := i, url := u, notes := some (strOr none),
          folder := some (strOr none),
          tags := some (jsOr (some v) (Json.arr [])), created := c } hfresh
      simpa [rowToLinkOut, strOr, jsOr, hv] using this
  · intro pid b hurl htags hex2
    obtain ⟨r, hr, hrid⟩ := hex2
    have hfindsome : (db.links.find? (fun x => x.id == pid)).isSome := by
      rw [List.find?_isSome]
      exact ⟨r, hr, by simp [hrid]⟩
    obtain ⟨r0, hr0⟩ := Option.isSome_iff_exists.mp hfindsome
    have hp0 : (r0.id == pid) = true := by
      have hmm := List.find?_some hr0
      simpa using hmm
    have hdb2 : (putLink db pid b).2 =
        { db with links := db.links.map fun x =>
            if x.id == pid then
              { x with url := u, notes := some (strOr b.notes),
                       folder := some (strOr b.folder),
                       tags := some (jsOr b.tags (Json.arr [])) }
            else x } := by
      rw [putLink_found db pid b u hurl ⟨r, hr, hrid⟩]
    have hpres : ∀ x : LinkRow,
        ((if x.id == pid then
            { x with url := u, notes := some (strOr b.notes),
                     folder := some (strOr b.folder),
                     tags := some (jsOr b.tags (Json.arr [])) }
          else x).id == pid) = (x.id == pid) := by
      intro x
      by_cases hx : x.id == pid <;> simp [hx]
    have hsel : selectLinkById (putLink db pid b).2 pid = some
        { r0 with url := u, notes := some (strOr b.notes),
                  folder := some (strOr b.folder),
                  tags := some (jsOr b.tags (Json.arr [])) } := by
      rw [hdb2]
      show List.find? (fun x => x.id == pid)
          (db.links.map fun x =>
            if x.id == pid then
              { x with url := u, notes := some (strOr b.notes),
                       folder := some (strOr b.folder),
                       tags := some (jsOr b.tags (Json.arr [])) }
            else x) = _
      rw [find?_map_comm _ _ hpres, hr0]
      have hid0 : r0.id = pid := by simpa using hp0
      simp [hp0, hid0]
    refine ⟨_, hsel, ?_, ?_, ?_⟩
    · simp [htags, jsOr, hv]
    · unfold getLinkById
      rw [hsel]
    · simp [rowToLinkOut, htags, jsOr, hv]

theorem tags_unvalidated_witness :
    (postLinks
        ⟨[{ id := "b", url := "u0", notes := none, folder := none,
            tags := none, created := "t0" }], []⟩
        { id := some "a", url := some "u", tags := some (Json.str "hello"),
          created := some "t" }).2.links =
      [{ id := "b", url := "u0", notes := none, folder := none,
         tags := none, created := "t0" }] ++
        [{ id := "a", url := "u", notes := some "", folder := some "",
           tags := some (Json.str "hello"), created := "t" }] ∧
    getLinkById
        (postLinks
          ⟨[{ id := "b", url := "u0", notes := none, folder := none,
              tags := none, created := "t0" }], []⟩
          { id := some "a", url := some "u", tags := some (Json.str "hello"),
            created := some "t" }).2 "a" =
      { status := 200,
        body := .link
          { id := "a", url := "u", notes := some "", folder := some "",
            tags := Json.str "hello", created := "t" } } ∧
    (∃ r2, selectLinkById
        (putLink
          ⟨[{ id := "b", url := "u0", notes := none, folder := none,
              tags := none, created := "t0" }], []⟩
          "b" { url := some "u", tags := some (Json.str "hello") }).2 "b" =
        some r2 ∧
      r2.tags = some (Json.str "hello") ∧
      getLinkById
          (putLink
            ⟨[{ id := "b", url := "u0", notes := none, folder := none,
                tags := none, created := "t0" }], []⟩
            "b" { url := some "u", tags := some (Json.str "hello") }).2 "b" =
        { status := 200, body := .link (rowToLinkOut r2) } ∧
      (rowToLinkOut r2).tags = Json.str "hello") :=
  have h := tags_unvalidated
    ⟨[{ id := "b", url := "u0", notes := none, folder := none,
        tags := none, created := "t0" }], []⟩
    "a" "u" "t" (Json.str "hello") rfl (by decide) (by decide) (by decide)
  have h1 := h.1 (by
    intro r hr
    simp at hr
    subst hr
    decide)
  have h2 := h.2 "b" { url := some "u", tags := some (Json.str "hello") }
    rfl rfl
    ⟨{ id := "b", url := "u0", notes := none, folder := none,
       tags := none, created := "t0" }, by simp, rfl⟩
  ⟨h1.1, h1.2, h2⟩
